import Mathlib

/-!
Verification development for the `endail/hx711` driver (C++ sources under
`src/`).  Each C++ component relevant to the checked claims is shallowly
embedded as an executable Lean definition:

* `double` is modelled by `ℚ` (all values appearing in the statements below
  are small integers or exact decimal fractions, for which IEEE-754 binary64
  arithmetic is exact, so the rational model agrees with the C++ semantics
  at every evaluated point);
* the 32-bit signed `val_t` / `Value::_INTERNAL_TYPE` is modelled by `ℤ`
  (every quantity handled stays far inside the 32-bit range, so wrap-around
  never occurs and is not modelled);
* wall-clock timestamps (`std::chrono::steady_clock::time_point`) are
  modelled by `ℕ` nanosecond counts passed explicitly to the operations
  that call `now()`;
* a C++ function that can throw is modelled with `Except Err` (or, for a
  mutating member function, by returning the post-state together with
  `Option Err`, since a C++ exception leaves already-performed member
  mutations in place).
-/

namespace HX711

/-- Error taxonomy: one constructor per exception type thrown by the
sources (`std::invalid_argument`, `std::range_error`, `std::runtime_error`,
`TimeoutException`, `GpioException`). -/
inductive Err where
  | invalidArgument
  | rangeError
  | runtimeError
  | timeoutErr
  | gpioErr
deriving DecidableEq, Repr

/-! ## Value (src/include/Value.h, src/src/Value.cpp)

`val_t` is a 32-bit signed integer (`Value.h` doc comment: "A 32 bit
integer holds the actual value from the sensor"), modelled by `ℤ`. -/

namespace Value

/-- Source constant `Value::_MIN = -static_cast<val_t>(std::pow(2, 24 - 1))`. -/
def MIN : ℤ := -(2 ^ (24 - 1))

/-- Source constant `Value::_MAX = static_cast<val_t>(std::pow(2, 24 - 1)) - 1`. -/
def MAX : ℤ := 2 ^ (24 - 1) - 1

/-- Source constant `Value::SATURATION_MIN = 0x800000` (Value.h line 50).
Note the literal is positive: as a `val_t` it is `+8388608`. -/
def SATURATION_MIN : ℤ := 0x800000

/-- Source constant `Value::SATURATION_MAX = 0x7FFFFF` (Value.h line 51). -/
def SATURATION_MAX : ℤ := 0x7FFFFF

/-- Source `Value::isSaturated` (Value.cpp lines 32-34):
`return this->_v == SATURATION_MIN || this->_v == SATURATION_MAX;` -/
def isSaturated (v : ℤ) : Bool :=
  v == SATURATION_MIN || v == SATURATION_MAX

/-- Source `Value::isValid` (Value.cpp lines 36-38):
`return this->_v >= _MIN && this->_v <= _MAX;` -/
def isValid (v : ℤ) : Bool :=
  decide (MIN ≤ v) && decide (v ≤ MAX)

end Value

/-! ## Two's-complement decoding (src/src/HX711.cpp) -/

/-- Source `HX711::_convertFromTwosComplement` (HX711.cpp lines 65-67):
`return -(val & 0x800000) + (val & 0x7fffff);` on `std::int32_t`.
`Int.land` is two's-complement bitwise and, which agrees with the C++ `&`
on `int32_t` for all values handled here (the argument assembled by
`_readInt` is a non-negative 24-bit word). -/
def convertFromTwosComplement (val : ℤ) : ℤ :=
  -(Int.land val 0x800000) + Int.land val 0x7fffff

/-- Taken from the claim's words, not from a source function: the standard
24-bit two's-complement encoding of `v`, i.e. the unique word in
`[0, 2^24)` congruent to `v` modulo `2^24`.  This is the word that
`HX711::_readInt` (HX711.cpp lines 213-230) assembles from the three raw
bytes when the chip transmits the signed reading `v`. -/
def encodeTwosComplement (v : ℤ) : ℤ :=
  v % 2 ^ 24

end HX711

namespace HX711

/-! ## Theorems for claims C2 and C8 -/

/-- Claim C2 (code_bug evidence). The claim states `isValid(v)` iff
`-0x800000 ≤ v ≤ 0x7FFFFF` (true, first conjunct) and `isSaturated(v)` iff
`v = -0x800000 ∨ v = 0x7FFFFF`.  The code fails the second part at the
failing input `v = -0x800000`: `Value.cpp` defines `SATURATION_MIN` as the
positive literal `0x800000`, so the decoded 24-bit minimum `-0x800000` is
not reported as saturated (second conjunct), while `+0x800000` — a value
`isValid` itself rejects — is (third and fourth conjuncts).  This
contradicts the header's own datasheet comment ("the output data will be
saturated at 800000h (MIN) or 7FFFFFh (MAX)") and the sibling
implementation in `src/src/HX711.cpp` lines 44-46, which compares against
`_MIN = -0x800000`. -/
theorem c2_saturation_constants :
    (∀ v : ℤ, Value.isValid v = true ↔ (-0x800000 ≤ v ∧ v ≤ 0x7FFFFF)) ∧
    Value.isSaturated (-0x800000) = false ∧
    Value.isSaturated 0x800000 = true ∧
    Value.isValid 0x800000 = false := by
  refine ⟨fun v => ?_, by decide, by decide, by decide⟩
  simp [Value.isValid, Value.MIN, Value.MAX]

/-- Claim C8 (confirmed). For every `v` in the signed 24-bit range,
decoding (`HX711::_convertFromTwosComplement`, HX711.cpp lines 65-67) the
24-bit two's-complement encoding of `v` yields `v` back: decode composed
with encode is the identity on `[-0x800000, 0x7FFFFF]`. -/
theorem c8_decode_encode (v : ℤ) (h1 : -0x800000 ≤ v) (h2 : v ≤ 0x7FFFFF) :
    convertFromTwosComplement (encodeTwosComplement v) = v := by
  have hge : 0 ≤ v % 2 ^ 24 := Int.emod_nonneg v (by norm_num)
  have hlt : v % 2 ^ 24 < 2 ^ 24 := Int.emod_lt_of_pos v (by norm_num)
  have hcast : ((v % 2 ^ 24).toNat : ℤ) = v % 2 ^ 24 := Int.toNat_of_nonneg hge
  set n : ℕ := (v % 2 ^ 24).toNat with hn
  have hn24 : n < 2 ^ 24 := by omega
  have henc : encodeTwosComplement v = (n : ℤ) := hcast.symm
  have hland1 : Int.land (n : ℤ) 0x800000 = ((n &&& 0x800000 : ℕ) : ℤ) := rfl
  have hland2 : Int.land (n : ℤ) 0x7fffff = ((n &&& 0x7fffff : ℕ) : ℤ) := rfl
  have hmask : n &&& 0x7fffff = n % 2 ^ 23 := by
    have h := Nat.and_pow_two_sub_one_eq_mod n 23
    norm_num at h
    exact h
  have hsplit : n &&& 0x800000 = if 8388608 ≤ n then 8388608 else 0 := by
    have hhigh : n &&& 0x800000 = (n.testBit 23).toNat * 2 ^ 23 := by
      have h := Nat.and_two_pow n 23
      norm_num at h
      exact h
    rw [hhigh, Nat.testBit_to_div_mod]
    by_cases hc : 8388608 ≤ n
    · have hq : n / 2 ^ 23 % 2 = 1 := by omega
      rw [hq]
      simp [hc]
    · have hq : n / 2 ^ 23 % 2 = 0 := by omega
      rw [hq]
      simp [hc]
  rw [henc]
  show -(Int.land (n : ℤ) 0x800000) + Int.land (n : ℤ) 0x7fffff = v
  rw [hland1, hland2, hmask, hsplit]
  by_cases h23 : 8388608 ≤ n
  · rw [if_pos h23]
    omega
  · rw [if_neg h23]
    omega

/-- Witness for `c8_decode_encode` at the concrete input `v = -5`. -/
theorem c8_decode_encode_witness :
    convertFromTwosComplement (encodeTwosComplement (-5)) = -5 :=
  c8_decode_encode (-5) (by decide) (by decide)

end HX711

namespace HX711

/-! ## Mass (src/include/Mass.h, src/src/Mass.cpp)

`Mass` stores the canonical amount `_ug` (micrograms) as a `double`
(modelled `ℚ`) plus the display unit `_u`. -/

/-- Source enum `Mass::Unit` (Mass.h). -/
inductive MassUnit where
  | UG | MG | G | KG | TON | IMP_TON | US_TON | ST | LB | OZ
deriving DecidableEq, Repr

/-- Source table `Mass::_RATIOS` (Mass.cpp lines 37-48): micrograms per
one unit.  Every entry is an exactly representable binary64 value
(integers below 2^53, and 28349523.125 has a finite binary expansion),
so the `ℚ` model is exact. -/
def RATIOS : MassUnit → ℚ
  | .UG => 1
  | .MG => 1000
  | .G => 1000000
  | .KG => 1000000000
  | .TON => 1000000000000
  | .IMP_TON => 1016046908800
  | .US_TON => 907184740000
  | .ST => 6350293180
  | .LB => 453592370
  | .OZ => 28349523125 / 1000

/-- Source `Mass::convert` (Mass.cpp lines 257-276).  C++ parameter names
`from`/`to` are Lean keywords, renamed `srcU`/`dstU`.  Note the final
(general) case is the source's literal `return convert(amount, to, Unit::UG);`
— it swaps the arguments and drops `from`. -/
def Mass.convert (amount : ℚ) (srcU dstU : MassUnit) : ℚ :=
  if srcU = dstU then amount
  else if dstU = .UG then amount * RATIOS srcU
  else if srcU = .UG then amount / RATIOS dstU
  else Mass.convert amount dstU .UG
termination_by (if dstU = MassUnit.UG then 0 else 1)
decreasing_by simp_all

/-- Evaluation lemma: `convert` on equal units returns the amount. -/
theorem convert_self (a : ℚ) (u : MassUnit) : Mass.convert a u u = a := by
  rw [Mass.convert]
  simp

/-- Evaluation lemma: `convert` into the base unit multiplies by the ratio. -/
theorem convert_to_ug (a : ℚ) (s : MassUnit) (h : s ≠ .UG) :
    Mass.convert a s .UG = a * RATIOS s := by
  rw [Mass.convert]
  simp [h]

/-- Evaluation lemma for the general branch (both units distinct from each
other and from `UG`): the source recurses as `convert(amount, to, UG)`. -/
theorem convert_other (a : ℚ) (s d : MassUnit) (h1 : s ≠ d) (h2 : d ≠ .UG)
    (h3 : s ≠ .UG) : Mass.convert a s d = Mass.convert a d .UG := by
  rw [Mass.convert]
  simp [h1, h2, h3]

/-- Data of a `Mass` object: canonical micrograms `_ug` and display unit `_u`. -/
structure Mass where
  ug : ℚ
  u : MassUnit
deriving DecidableEq, Repr

/-- Source constructor `Mass::Mass(double amount, Unit u)` (Mass.cpp lines
63-66): `_ug(convert(amount, u, Unit::UG)), _u(u)`. -/
def Mass.ofAmount (amount : ℚ) (u : MassUnit) : Mass :=
  ⟨Mass.convert amount u .UG, u⟩

/-- Source `operator+(const Mass&, const Mass&)` (Mass.cpp lines 99-104):
`return Mass(lhs._ug + rhs._ug, lhs._u);` — note the sum of canonical
amounts is passed back through the converting constructor. -/
def Mass.add (lhs rhs : Mass) : Mass :=
  Mass.ofAmount (lhs.ug + rhs.ug) lhs.u

/-- Source `operator-(const Mass&, const Mass&)` (Mass.cpp lines 106-111). -/
def Mass.sub (lhs rhs : Mass) : Mass :=
  Mass.ofAmount (lhs.ug - rhs.ug) lhs.u

/-- Source `operator*(const Mass&, const Mass&)` (Mass.cpp lines 113-118). -/
def Mass.mul (lhs rhs : Mass) : Mass :=
  Mass.ofAmount (lhs.ug * rhs.ug) lhs.u

/-- Source `operator/(const Mass&, const Mass&)` (Mass.cpp lines 120-131):
throws `std::invalid_argument` when `rhs._ug == 0`. -/
def Mass.div (lhs rhs : Mass) : Except Err Mass :=
  if rhs.ug = 0 then .error .invalidArgument
  else .ok (Mass.ofAmount (lhs.ug / rhs.ug) lhs.u)

/-- Source `Mass::operator+=` (Mass.cpp lines 133-136): mutates `_ug`
directly, with no reconversion. -/
def Mass.addAssign (lhs rhs : Mass) : Mass :=
  { lhs with ug := lhs.ug + rhs.ug }

/-- Claim C3 (code_bug evidence) at the failing input `a = b = Mass(1.0, G)`.
The claim states the canonical amount of `a + b` equals the sum of the
canonical amounts.  In the code, `operator+` feeds `lhs._ug + rhs._ug`
back through the converting constructor `Mass(double, Unit)`, which treats
the canonical sum as an amount in `lhs`'s display unit and multiplies by
the ratio again: canonical(a+b) = 2·10^12 µg (first conjunct) instead of
canonical(a)+canonical(b) = 2·10^6 µg (second conjunct).  The claim's
display-unit part does hold (fourth conjunct), and the compound operator
`+=` in the same file produces the value the claim requires (fifth
conjunct) — the binary operators contradict their compound counterparts,
so the claim is taken as the intent and the binary operators as the bug. -/
theorem c3_mass_ops_double_convert :
    (Mass.add (Mass.ofAmount 1 .G) (Mass.ofAmount 1 .G)).ug = 2000000000000 ∧
    (Mass.ofAmount 1 .G).ug + (Mass.ofAmount 1 .G).ug = 2000000 ∧
    (2000000000000 : ℚ) ≠ 2000000 ∧
    (Mass.add (Mass.ofAmount 1 .G) (Mass.ofAmount 1 .G)).u = .G ∧
    (Mass.addAssign (Mass.ofAmount 1 .G) (Mass.ofAmount 1 .G)).ug = 2000000 := by
  have hG : Mass.convert 1 .G .UG = 1000000 := by
    rw [convert_to_ug 1 .G (by decide)]
    norm_num [RATIOS]
  refine ⟨?_, ?_, by norm_num, by simp [Mass.add, Mass.ofAmount], ?_⟩
  · show (Mass.ofAmount ((Mass.ofAmount 1 .G).ug + (Mass.ofAmount 1 .G).ug) .G).ug = _
    simp only [Mass.ofAmount, hG]
    rw [show (1000000 : ℚ) + 1000000 = 2000000 by norm_num,
        convert_to_ug 2000000 .G (by decide)]
    norm_num [RATIOS]
  · simp only [Mass.ofAmount, hG]
    norm_num
  · simp only [Mass.addAssign, Mass.ofAmount, hG]
    norm_num

/-- Claim C9 (code_bug evidence).  The identity part holds for every unit
(first conjunct, the source's `if(from == to) return amount;`).  The
round-trip part fails at the failing input `x = 1, A = G, B = MG`: for two
units that are both distinct from the base unit, `Mass::convert` falls
into `return convert(amount, to, Unit::UG);` (Mass.cpp line 274), which
ignores `from`, so `convert(convert(1, G, MG), MG, G) = 10^9` (second
conjunct) — not approximately `1` (third conjunct); every value involved
is exactly representable in binary64, so this is not a rounding effect. -/
theorem c9_convert_identity_roundtrip :
    (∀ (u : MassUnit) (x : ℚ), Mass.convert x u u = x) ∧
    Mass.convert (Mass.convert 1 .G .MG) .MG .G = 1000000000 ∧
    (1000000000 : ℚ) ≠ 1 := by
  refine ⟨fun u x => convert_self x u, ?_, by norm_num⟩
  rw [convert_other 1 .G .MG (by decide) (by decide) (by decide),
      convert_to_ug 1 .MG (by decide)]
  norm_num [RATIOS]
  rw [convert_other 1000 .MG .G (by decide) (by decide) (by decide),
      convert_to_ug 1000 .G (by decide)]
  norm_num [RATIOS]

end HX711

namespace HX711

/-! ## Scale engine (src/include/AbstractScale.h, src/src/AbstractScale.cpp)

`AbstractScale::getValues` is pure virtual; its outcome in a given run
(the acquired readings, or the exception the override threw) is passed to
`read`/`zero` as an explicit `acquired : Except Err (List ℤ)` argument. -/

/-- Source enum `StrategyType` (AbstractScale.h lines 34-37). -/
inductive StrategyType where
  | Samples | Time
deriving DecidableEq, Repr

/-- Source enum `ReadType` (AbstractScale.h lines 39-42). -/
inductive ReadType where
  | Median | Average
deriving DecidableEq, Repr

/-- Source struct `Options` (AbstractScale.h lines 44-55); the duration is
a nanosecond count. -/
structure Options where
  stratType : StrategyType
  readType : ReadType
  samples : Nat
  timeout : Nat
deriving DecidableEq, Repr

/-- Source constructor `Options(std::size_t)` (AbstractScale.cpp lines
39-43): samples strategy, median reduction. -/
def Options.ofSamples (s : Nat) : Options :=
  ⟨.Samples, .Median, s, 0⟩

/-- Source `Utility::median` (src/src/Utility.cpp lines 271-305).  The two
`std::nth_element` calls place the `size/2 - 1`-th and `size/2`-th order
statistics at their positions; order statistics are what sorting yields,
so the model sorts and indexes. -/
def median (vals : List ℤ) : ℚ :=
  if vals.length = 1 then ((vals.headD 0 : ℤ) : ℚ)
  else
    let sorted := List.insertionSort (· ≤ ·) vals
    if vals.length % 2 = 0 then
      (((sorted.getD (vals.length / 2 - 1) 0 + sorted.getD (vals.length / 2) 0 : ℤ)) : ℚ) / 2
    else ((sorted.getD (vals.length / 2) 0 : ℤ) : ℚ)

/-- Source `Utility::average` (src/src/Utility.cpp lines 258-269): the sum
is accumulated in a `long long int` (exact for all realistic sample
counts) and divided by the count as a `double`. -/
def average (vals : List ℤ) : ℚ :=
  ((vals.sum : ℤ) : ℚ) / (vals.length : ℚ)

/-- State of an `AbstractScale` object: `_massUnit`, `_refUnit`, `_offset`
(AbstractScale.h lines 59-62). -/
structure AbstractScale where
  massUnit : MassUnit
  refUnit : ℤ
  offset : ℤ
deriving DecidableEq, Repr

/-- Source constructor `AbstractScale::AbstractScale` (AbstractScale.cpp
lines 60-67): `noexcept`, stores all three fields unchecked — in
particular it performs no zero check on `refUnit`. -/
def mkAbstractScale (massUnit : MassUnit) (refUnit offset : ℤ) : AbstractScale :=
  ⟨massUnit, refUnit, offset⟩

/-- Source `AbstractScale::setReferenceUnit` (AbstractScale.cpp lines
81-89): throws `std::invalid_argument` for 0, otherwise stores. -/
def AbstractScale.setReferenceUnit (s : AbstractScale) (refUnit : ℤ) :
    Except Err AbstractScale :=
  if refUnit = 0 then .error .invalidArgument
  else .ok { s with refUnit := refUnit }

/-- Source `AbstractScale::normalise` (AbstractScale.cpp lines 99-102):
`return (v - this->_offset) / this->_refUnit;`.  The `assert(_refUnit != 0)`
on line 100 is compiled out in release (`NDEBUG`) builds and is not part
of the function's value semantics. -/
def AbstractScale.normalise (s : AbstractScale) (v : ℚ) : ℚ :=
  (v - (s.offset : ℚ)) / (s.refUnit : ℚ)

/-- Shared tail of `AbstractScale::read` (AbstractScale.cpp lines 126-146):
empty-sample check, reduction, normalisation.  The `default:` branches of
the source's switches are unreachable over the exhaustive enums. -/
def AbstractScale.readReduce (s : AbstractScale) (o : Options) (vals : List ℤ) :
    Except Err ℚ :=
  if vals = [] then .error .runtimeError
  else
    let val : ℚ :=
      match o.readType with
      | .Median => median vals
      | .Average => average vals
    .ok (s.normalise val)

/-- Source `AbstractScale::read` (AbstractScale.cpp lines 104-147):
strategy dispatch (`samples == 0` is a `std::range_error`), then reduce
and normalise the acquired values. -/
def AbstractScale.read (s : AbstractScale) (o : Options)
    (acquired : Except Err (List ℤ)) : Except Err ℚ :=
  match o.stratType with
  | .Samples =>
      if o.samples = 0 then .error .rangeError
      else
        match acquired with
        | .error e => .error e
        | .ok vals => s.readReduce o vals
  | .Time =>
      match acquired with
      | .error e => .error e
      | .ok vals => s.readReduce o vals

/-- Model of `std::round`: round half away from zero. -/
def roundHalfAwayFromZero (q : ℚ) : ℤ :=
  if 0 ≤ q then ⌊q + 1 / 2⌋ else ⌈q - 1 / 2⌉

/-- Source `AbstractScale::zero` (AbstractScale.cpp lines 149-154):
back up `_refUnit`, set it to 1, read, store the rounded result as
`_offset`, restore the backup.  There is no try/catch: if `read` throws,
the exception propagates with `_refUnit` still 1 (the member mutations
performed so far remain, which the state-plus-`Option Err` return models);
the restoring `setReferenceUnit(backup)` itself throws if the backed-up
reference unit was 0. -/
def AbstractScale.zero (s : AbstractScale) (o : Options)
    (acquired : Except Err (List ℤ)) : AbstractScale × Option Err :=
  let backup := s.refUnit
  let s1 : AbstractScale := { s with refUnit := 1 }
  match s1.read o acquired with
  | .error e => (s1, some e)
  | .ok q =>
      let s2 : AbstractScale := { s1 with offset := roundHalfAwayFromZero q }
      if backup = 0 then (s2, some .invalidArgument)
      else ({ s2 with refUnit := backup }, none)

/-- Claim C1 (code_bug evidence) at the failing input: starting state
`refUnit = 2`, `offset = 4`, options `{Samples: 1, Median}`, constant raw
input `X = 10`.  Inside `zero`, `read` subtracts the *still-current* old
offset, so the stored offset becomes `round((X - 4)/1) = 6` rather than
`X = 10` (first conjunct); the subsequent `read` on the same constant
input then returns `(10 - 6)/2 = 2` (second conjunct), which is not `0.0`
(third conjunct) — breaking the claim, which requires `0.0` regardless of
the pre-call offset.  (With a pre-call offset of 0 the claim's behaviour
does emerge, which is why the slip survives first-use testing.) -/
theorem c1_zero_then_read :
    AbstractScale.zero (mkAbstractScale .G 2 4) (Options.ofSamples 1) (.ok [10]) =
      (mkAbstractScale .G 2 6, none) ∧
    AbstractScale.read (mkAbstractScale .G 2 6) (Options.ofSamples 1) (.ok [10]) =
      .ok 2 ∧
    (2 : ℚ) ≠ 0 := by
  refine ⟨?_, ?_, by norm_num⟩ <;>
    norm_num [AbstractScale.zero, AbstractScale.read, AbstractScale.readReduce,
      median, AbstractScale.normalise, roundHalfAwayFromZero, mkAbstractScale,
      Options.ofSamples]

/-- Claim C4 (code_bug evidence) at the failing input: starting state
`refUnit = 5`, `offset = 7`, and the read inside `zero` failing because
zero samples were obtained (`std::runtime_error`).  `zero` has no
try/catch, so the error is re-raised (matching the claim) but `_refUnit`
is left at the temporary value 1 — not restored to the pre-call value 5
(second conjunct) — violating the claim's strong rollback; `_offset`
alone keeps its pre-call value 7.  The `backup` local in the source shows
the restore was intended. -/
theorem c4_zero_error_no_rollback :
    AbstractScale.zero (mkAbstractScale .G 5 7) (Options.ofSamples 1) (.ok []) =
      (mkAbstractScale .G 1 7, some .runtimeError) ∧
    (1 : ℤ) ≠ 5 := by
  refine ⟨?_, by decide⟩
  norm_num [AbstractScale.zero, AbstractScale.read, AbstractScale.readReduce,
    mkAbstractScale, Options.ofSamples]

/-- Claim C10 (confirmed).  The `noexcept` constructor accepts a reference
unit of 0 for every offset without any error path (first conjunct; the
model constructor is a total function, exactly like the source
constructor, which merely stores the fields); the zero check exists only
in `setReferenceUnit` (second conjunct).  Consequently the state with
`refUnit = 0` is reachable, and a public `read` on it succeeds while
performing `(reduced - offset) / refUnit` with the zero divisor (third
conjunct — the right-hand side exhibits the division by the constructed
state's reference unit, which the first conjunct shows is 0; `normalise`'s
`assert` is absent from release builds). -/
theorem c10_zero_ref_unit_reachable :
    (∀ f : ℤ, (mkAbstractScale .G 0 f).refUnit = 0) ∧
    AbstractScale.setReferenceUnit (mkAbstractScale .G 0 5) 0 =
      .error .invalidArgument ∧
    AbstractScale.read (mkAbstractScale .G 0 5) (Options.ofSamples 1) (.ok [10]) =
      .ok ((10 - 5) / ((mkAbstractScale .G 0 5).refUnit : ℚ)) := by
  refine ⟨fun f => rfl, by rfl, ?_⟩
  norm_num [AbstractScale.read, AbstractScale.readReduce, median,
    AbstractScale.normalise, mkAbstractScale, Options.ofSamples]

end HX711

namespace HX711

/-! ## ValueStack (src/include/ValueStack.h, src/src/ValueStack.cpp)

The buffer the Watcher thread fills and `AdvancedHX711::getValues`
drains.  `std::chrono::steady_clock::now()` is modelled by an explicit
`now : ℕ` nanosecond argument to the operations that sample the clock. -/

/-- Source struct `ValueStack::StackEntry` (ValueStack.h lines 34-37):
a value and the timestamp of its push. -/
structure StackEntry where
  val : ℤ
  when : ℕ
deriving DecidableEq, Repr

/-- State of a `ValueStack` (ValueStack.h lines 45-47).  The list front is
the `std::list` front: `push` conses at the front, the back holds the
oldest retained entry. -/
structure ValueStack where
  container : List StackEntry
  maxSize : ℕ
  maxAge : ℕ
deriving DecidableEq, Repr

/-- Model of `std::list::remove_if`: drop exactly the elements satisfying
the predicate, keeping relative order. -/
def removeIf (p : StackEntry → Bool) (l : List StackEntry) : List StackEntry :=
  l.filter (fun e => !p e)

/-- Source `ValueStack::_update` (ValueStack.cpp lines 31-45): first
`while(size > maxSize) pop_back()` (i.e. keep the first `maxSize`
entries), then `remove_if` with the source's literal predicate
`(e.when + this->_maxAge) > now`. -/
def ValueStack.update (st : ValueStack) (now : ℕ) : ValueStack :=
  let c1 := st.container.take st.maxSize
  let c2 := removeIf (fun e => decide (e.when + st.maxAge > now)) c1
  { st with container := c2 }

/-- Source `ValueStack::full` (ValueStack.cpp lines 88-90):
`size() >= _maxSize`. -/
def ValueStack.full (st : ValueStack) : Bool :=
  decide (st.container.length ≥ st.maxSize)

/-- Source `ValueStack::push` (ValueStack.cpp lines 54-68): `_update()`,
then `pop_back()` if full, then `push_front` of the new timestamped
entry. -/
def ValueStack.push (st : ValueStack) (val : ℤ) (now : ℕ) : ValueStack :=
  let st1 := st.update now
  let c := if st1.full then st1.container.dropLast else st1.container
  { st1 with container := ⟨val, now⟩ :: c }

/-- Source `ValueStack::pop` (ValueStack.cpp lines 70-74): return the
front value and `pop_front` — with no call to `_update` and no eviction.
`front()` on an empty list is C++ UB; all modelled callers check
`empty()` first, and the default entry is never read on those paths. -/
def ValueStack.pop (st : ValueStack) : ℤ × ValueStack :=
  ((st.container.headD ⟨0, 0⟩).val, { st with container := st.container.tail })

/-- Source `ValueStack::size` (ValueStack.cpp lines 76-78): `const`, no
call to `_update`, no eviction. -/
def ValueStack.size (st : ValueStack) : ℕ :=
  st.container.length

/-- Source `ValueStack::empty` (ValueStack.cpp lines 84-86). -/
def ValueStack.isEmptyStack (st : ValueStack) : Bool :=
  st.container.isEmpty

/-! ## Consumer drain (src/src/AdvancedHX711.cpp lines 89-134)

`AdvancedHX711::getValues(const std::size_t samples)` loops: wait until
the Watcher's stack is non-empty, lock it, and pop
`while(!values.empty() && vals.size() < samples)` appending each popped
value to the output vector. -/

/-- The locked inner while loop of `AdvancedHX711::getValues(size_t)`
(AdvancedHX711.cpp lines 122-125), acting on the stack's container list:
pop the front entry and append its value to `acc` while the container is
non-empty and fewer than `samples` values have been taken.  Returns the
output vector and the remaining container. -/
def drainList (samples : ℕ) : List StackEntry → List ℤ → List ℤ × List StackEntry
  | [], acc => (acc, [])
  | e :: rest, acc =>
      if acc.length < samples then drainList samples rest (acc ++ [e.val])
      else (acc, e :: rest)

/-- `drainList` lifted to the `ValueStack` state. -/
def ValueStack.drain (st : ValueStack) (samples : ℕ) (acc : List ℤ) :
    List ℤ × ValueStack :=
  let r := drainList samples st.container acc
  (r.1, { st with container := r.2 })

/-- One scheduling step visible to a `getValues(samples)` call: either the
Watcher thread pushes a reading (with the clock at `t`), or the consumer
wins the lock and drains.  A schedule is an admissible interleaving of
the two threads. -/
inductive SEvent where
  | push (v : ℤ) (t : ℕ)
  | drain
deriving DecidableEq, Repr

/-- Run of `AdvancedHX711::getValues(samples)` (AdvancedHX711.cpp lines
89-134) against a schedule: the call starts with a cleared stack
(`_wx->values.clear()`), accumulates drained values in arrival-at-drain
order, and returns once `samples` values are collected.  If the schedule
ends first, the partial accumulator is returned (the real call would keep
waiting; the theorems below only use schedules that fill the request). -/
def getValuesRun (samples : ℕ) : List SEvent → ValueStack → List ℤ →
    List ℤ × ValueStack
  | [], st, acc => (acc, st)
  | .push v t :: es, st, acc => getValuesRun samples es (st.push v t) acc
  | .drain :: es, st, acc =>
      if acc.length < samples then
        let r := st.drain samples acc
        getValuesRun samples es r.2 r.1
      else (acc, st)

end HX711

namespace HX711

/-! ## Theorems for claims C5 and C6 -/

/-- Claim C5 counterexample.  The claim asserts FIFO delivery: a
successful `get_values(n)` returns readings in the order the Sampler
produced them.  Concrete refuting run: with the default-sized stack
(`maxSize = 80`, `maxAge = 1s = 10^9 ns`), the Watcher pushes reading `1`
at `t = 0` and reading `2` at `t = 2·10^9` (the consumer thread not yet
scheduled), then the consumer drains: `getValues(2)` returns `[2, 1]` —
the reverse of the production order `[1, 2]` — because `ValueStack.push`
is `push_front` and `ValueStack.pop` takes the front (LIFO).  (The first
entry survives the second push's `_update` precisely because it is more
than `maxAge` old — see C6.) -/
theorem c5_counterexample_fifo :
    (getValuesRun 2 [.push 1 0, .push 2 2000000000, .drain]
        ⟨[], 80, 1000000000⟩ []).1 = [2, 1] ∧
    ([2, 1] : List ℤ) ≠ [1, 2] := by
  refine ⟨by decide, by decide⟩

/-- Claim C5 as amended: within a single `get_values(n)` call, each batch
drained while the lock is held is delivered front-to-back from the buffer
— that is, newest-first, the reverse of the order the Sampler pushed the
retained entries (`push` conses at the front) — and each buffered entry is
delivered at most once, being removed from the buffer as it is delivered.
Formally: the drain loop returns exactly the first
`samples - acc.length` container entries' values appended to the
accumulator, and leaves precisely the remaining entries in the buffer (so
there is no duplication and no reordering other than the stack's
newest-first order). -/
theorem c5_amended_drain_lifo (samples : ℕ) (l : List StackEntry)
    (acc : List ℤ) (h : acc.length ≤ samples) :
    drainList samples l acc =
      (acc ++ (l.map StackEntry.val).take (samples - acc.length),
       l.drop (samples - acc.length)) := by
  induction l generalizing acc with
  | nil => simp [drainList]
  | cons e rest ih =>
      rw [drainList]
      by_cases hlt : acc.length < samples
      · rw [if_pos hlt, ih (acc ++ [e.val]) (by simp; omega)]
        have hs : samples - acc.length = (samples - (acc ++ [e.val]).length) + 1 := by
          simp
          omega
        rw [hs]
        simp [List.take_succ_cons, List.drop_succ_cons]
      · rw [if_neg hlt]
        have hz : samples - acc.length = 0 := by omega
        rw [hz]
        simp

/-- Witness for `c5_amended_drain_lifo` at `samples = 2`, a two-entry
buffer and an empty accumulator. -/
theorem c5_amended_drain_lifo_witness :
    drainList 2 [⟨5, 0⟩, ⟨6, 3⟩] [] = ([5, 6], []) := by
  have h := c5_amended_drain_lifo 2 [⟨5, 0⟩, ⟨6, 3⟩] [] (by decide)
  simpa using h

/-- Claim C6 (code_bug evidence).  The claim: after every push/pop/size
operation no buffered entry is older than `max_age`.  With
`maxSize = 2, maxAge = 10` ns: pushing value `1` at `t = 0` and value `2`
at `t = 20` leaves the entry timestamped 0 in the buffer (first conjunct)
even though its age `20 - 0 = 20` exceeds `maxAge = 10` (second
conjunct); conversely pushing value `2` at `t = 5` evicts the entry aged
only 5 (third conjunct).  The `remove_if` predicate
`(e.when + maxAge) > now` in `_update` (ValueStack.cpp line 42) is
inverted — it removes exactly the entries *younger* than `maxAge` and
keeps the stale ones — and `pop`/`size` perform no eviction at all. -/
theorem c6_age_filter_inverted :
    (ValueStack.push (ValueStack.push ⟨[], 2, 10⟩ 1 0) 2 20).container =
      [⟨2, 20⟩, ⟨1, 0⟩] ∧
    20 - 0 > 10 ∧
    (ValueStack.push (ValueStack.push ⟨[], 2, 10⟩ 1 0) 2 5).container =
      [⟨2, 5⟩] := by
  refine ⟨by decide, by decide, by decide⟩

/-! ## HX711::getValues (src/src/HX711.cpp lines 559-585)

The synchronous sample-count read used by `SimpleHX711`: switch the
watcher thread to `NORMAL`, then for each `i < len` wait (bounded by
`maxWait`) on the data-ready condition variable and record `_lastVal`;
afterwards switch the watcher back to `PAUSE`.  A wait is modelled by
`out i`: `some v` means the wait was notified with `_lastVal = v`, `none`
means the wait for slot `i` timed out. -/

/-- Source enum `PinWatchState` (HX711.h lines 64-69). -/
inductive PinWatchState where
  | NONE | NORMAL | PAUSE | END
deriving DecidableEq, Repr

/-- The `for` loop of `HX711::getValues` (HX711.cpp lines 569-580)
together with the surrounding state changes: recursion on the number of
slots still to fill.  On a timeout the `TimeoutException` is thrown and
propagates immediately — the watcher state at that moment is the `NORMAL`
set at entry, since `_changeWatchState(PinWatchState::PAUSE)` on line 582
is only reached after the loop completes. -/
def hxLoop (out : ℕ → Option ℤ) : ℕ → ℕ → List ℤ →
    PinWatchState × Except Err (List ℤ)
  | 0, _, acc => (.PAUSE, .ok acc)
  | remaining + 1, i, acc =>
      match out i with
      | none => (.NORMAL, .error .timeoutErr)
      | some v => hxLoop out remaining (i + 1) (acc ++ [v])

/-- Source `HX711::getValues(Value*, size_t, microseconds)` (HX711.cpp
lines 559-585): `_changeWatchState(NORMAL)`, the wait loop, then
`_changeWatchState(PAUSE)`.  Returns the watcher state as the call
returns or the exception escapes, plus the outcome. -/
def hxGetValues (len : ℕ) (out : ℕ → Option ℤ) :
    PinWatchState × Except Err (List ℤ) :=
  hxLoop out len 0 []

/-- Claim C7 (code_bug evidence) at the failing input `len = 1` with the
single wait timing out.  The claim: `TimeoutError` is raised (true — the
error component) *and* the watcher state equals `PAUSE` on both the
success and the timeout paths.  On the timeout path the exception
propagates before line 582's `_changeWatchState(PinWatchState::PAUSE)` is
reached, so the state remains `NORMAL` (first conjunct), which differs
from `PAUSE` (second conjunct); the success path does end in `PAUSE`
(third conjunct). -/
theorem c7_timeout_leaves_normal :
    hxGetValues 1 (fun _ => none) = (.NORMAL, .error .timeoutErr) ∧
    PinWatchState.NORMAL ≠ PinWatchState.PAUSE ∧
    hxGetValues 1 (fun _ => some 5) = (.PAUSE, .ok [5]) := by
  refine ⟨by rfl, by decide, by rfl⟩

end HX711
